import Mathlib

/-
Verification of the position and order execution engine of the
high_freq_scalping_tool repository.

The repository contains two snapshots of the engine:
  * `software/` : `position.py`, `trade_utils.py`, `strategy_sell.py`,
    `executor.py` (namespace `SW` below);
  * `sofware/`  : `executor.py`, the self-contained variant imported by
    `main.py` (namespace `SF` below).

Prices, cash amounts and fractions are modelled as rationals.  Python
`ZeroDivisionError` (always caught by the broad `except` blocks of the
executors, which merely log) is modelled by explicit zero tests on each
denominator returning the unchanged state; exceptions that the `software`
executor re-raises are modelled with `Except`.  Python object identity of
`Position` objects (used by `list.remove`) is modelled by an explicit `id`
field, fresh ids being drawn from a counter in the executor state.
-/

namespace Scalping

/-- Position side; the sources use the strings "long" and "short" and reject
every other value at construction time, so a closed two-variant type is the
faithful model of a validated position type. -/
inductive Side where
| long : Side
| short : Side
deriving DecidableEq, Repr

/-- Python `round(x)` (banker's rounding, round-half-to-even) on rationals. -/
def pyRound0 (x : ℚ) : ℤ :=
let f : ℤ := ⌊x⌋
if x - f < 1/2 then f
else if x - f > 1/2 then f + 1
else if 2 ∣ f then f else f + 1

/-- Python `round(x, 2)`. -/
def round2 (x : ℚ) : ℚ := (pyRound0 (x * 100) : ℚ) / 100

/-- `trade_utils.apply_slippage`: worse by `+slippage` for a long entry,
worse by `-slippage` for a short entry. -/
def apply_slippage (price : ℚ) (position_type : Side) (slippage_pct : ℚ) : ℚ :=
match position_type with
| .long => price * (1 + slippage_pct)
| .short => price * (1 - slippage_pct)

/-- `trade_utils.calculate_size_in_usd`.  `none` models the
`ZeroDivisionError` raised when `adjusted_price = 0` (in
`sl_size / adjusted_price`) or when the invalidation point is zero
(in `account_risk / invalidation_point`). -/
def calculate_size_in_usd (account_size risk_per_trade adjusted_price stop_loss_price : ℚ) :
    Option ℚ :=
let account_risk := account_size * risk_per_trade
let sl_size := |adjusted_price - stop_loss_price|
if adjusted_price = 0 then none
else
  let invalidation_point := sl_size / adjusted_price
  if invalidation_point = 0 then none
  else some (round2 (account_risk / invalidation_point))

/-- `trade_utils.calculate_proceeds`: note that the source function takes no
quantity argument at all; it returns `adjusted_price * (1 - transaction_cost)`. -/
def calculate_proceeds (adjusted_price transaction_cost : ℚ) : ℚ :=
let total_value := adjusted_price
let total_cost := total_value * transaction_cost
total_value - total_cost

namespace SW

/-- `software/position.py` `Position`.  `id` models Python object identity. -/
structure Position where
  id : ℕ
  type : Side
  amount : ℚ
  entry_price : ℚ
  entry_date : ℕ
  closed : Bool
  exit_price : Option ℚ
  exit_date : Option ℕ
  pnl : ℚ
  stop_loss_price : ℚ
deriving DecidableEq, Repr

/-- `Position.__init__` of `software/position.py`. -/
def Position.create (id : ℕ) (position_type : Side) (amount entry_price : ℚ)
    (entry_date : ℕ) : Position :=
{ id := id, type := position_type, amount := amount, entry_price := entry_price,
  entry_date := entry_date, closed := false, exit_price := none,
  exit_date := none, pnl := 0, stop_loss_price := 0 }

/-- `Position.close` of `software/position.py`: raises `ValueError` when the
position is already closed, otherwise records the exit and computes the pnl. -/
def Position.close (p : Position) (exit_price : ℚ) (exit_date : ℕ) :
    Except String Position :=
if p.closed then Except.error "Position is already closed"
else Except.ok
  { p with exit_price := some exit_price, exit_date := some exit_date,
           closed := true,
           pnl := match p.type with
                  | .long => (exit_price - p.entry_price) * p.amount
                  | .short => (p.entry_price - exit_price) * p.amount }

/-- `strategy_sell.update_trailing_stop`: ratchets the stored stop toward the
new stop value, long stops only upward, short stops only downward.  The
`price` argument is accepted but unused, as in the source. -/
def update_trailing_stop (position : Position) (price stop_loss_price : ℚ) :
    Position :=
match position.type with
| .long =>
    if stop_loss_price > position.stop_loss_price then
      { position with stop_loss_price := stop_loss_price }
    else position
| .short =>
    if stop_loss_price < position.stop_loss_price then
      { position with stop_loss_price := stop_loss_price }
    else position

/-- `strategy_sell.check_stop_loss`. -/
def check_stop_loss (position : Position) (price : ℚ) : Bool :=
match position.type with
| .long => price ≤ position.stop_loss_price
| .short => price ≥ position.stop_loss_price

/-- A transaction record of `software/executor.py`: the `open` record carries
`action`, `position_type`, `price`, `date`; the `close` record adds `pnl`. -/
inductive Tx where
| openTx (position_type : Side) (price : ℚ) (date : ℕ) : Tx
| closeTx (position_type : Side) (price : ℚ) (date : ℕ) (pnl : ℚ) : Tx
deriving DecidableEq, Repr

/-- `software/executor.py` `TradingExecutor` state. -/
structure Executor where
  cash : ℚ
  transaction_cost : ℚ
  leverage : ℚ
  slippage_pct : ℚ
  risk_per_trade : ℚ
  positions : List Position
  history : List Tx
deriving DecidableEq, Repr

/-- `TradingExecutor.close_position` of `software/executor.py`.  The broad
`except` re-raises every failure as a `RuntimeError`, so the `ValueError` of
`Position.close` on an already-closed position propagates to the caller
(`Except.error`).  Cash is credited with `proceeds = adjusted_price` exactly
as in the source (no quantity, no transaction-cost factor).  The final
`if position in self.positions: self.positions.remove(position)` removes the
first identity match when present, a no-op otherwise. -/
def close_position (e : Executor) (position : Position) (price : ℚ) (date : ℕ) :
    Except String Executor :=
let adjusted_price := apply_slippage price position.type e.slippage_pct
let proceeds := adjusted_price
match position.close adjusted_price date with
| Except.error msg => Except.error msg
| Except.ok p' =>
    Except.ok
      { e with cash := e.cash + proceeds,
               history := e.history ++
                 [Tx.closeTx position.type adjusted_price date p'.pnl],
               positions := e.positions.eraseP (fun q => q.id == position.id) }

end SW

namespace SF

/-- `sofware/executor.py` `Position`.  `id` models Python object identity. -/
structure Position where
  id : ℕ
  type : Side
  amount : ℚ
  entry_price : ℚ
  entry_date : ℕ
  stop_loss : Option ℚ
  take_profit : Option ℚ
  closed : Bool
  exit_price : Option ℚ
  exit_date : Option ℕ
  profit_loss : ℚ
deriving DecidableEq, Repr

/-- `Position.__init__` of `sofware/executor.py`. -/
def Position.create (id : ℕ) (position_type : Side) (amount entry_price : ℚ)
    (entry_date : ℕ) (stop_loss take_profit : Option ℚ) : Position :=
{ id := id, type := position_type, amount := amount,
  entry_price := entry_price, entry_date := entry_date,
  stop_loss := stop_loss, take_profit := take_profit, closed := false,
  exit_price := none, exit_date := none, profit_loss := 0 }

/-- The numeric epsilon of `Position.check_exit_conditions` (`1e-6`). -/
def epsilon : ℚ := 1 / 1000000

/-- `Position.check_exit_conditions` of `sofware/executor.py`. -/
def Position.check_exit_conditions (p : Position) (high_price low_price : ℚ) :
    Bool :=
if p.closed then false
else
  match p.type with
  | .long =>
      (match p.stop_loss with
       | some sl => low_price ≤ sl + epsilon
       | none => false) ||
      (match p.take_profit with
       | some tp => high_price ≥ tp - epsilon
       | none => false)
  | .short =>
      (match p.stop_loss with
       | some sl => high_price ≥ sl - epsilon
       | none => false) ||
      (match p.take_profit with
       | some tp => low_price ≤ tp + epsilon
       | none => false)

/-- `Position.close` of `sofware/executor.py`: no already-closed check, it
unconditionally records the exit and computes the profit or loss. -/
def Position.close (p : Position) (exit_price : ℚ) (exit_date : ℕ) : Position :=
{ p with exit_price := some exit_price, exit_date := some exit_date,
         closed := true,
         profit_loss := match p.type with
                        | .long => (exit_price - p.entry_price) * p.amount
                        | .short => (p.entry_price - exit_price) * p.amount }

/-- A transaction record of `sofware/executor.py`; both records carry an
`amount`, and the `close` record adds the realized `profit_loss`. -/
inductive Tx where
| openTx (position_type : Side) (price amount : ℚ) (date : ℕ) : Tx
| closeTx (position_type : Side) (price amount : ℚ) (date : ℕ)
    (profit_loss : ℚ) : Tx
deriving DecidableEq, Repr

/-- `sofware/executor.py` `TradingExecutor` state.  `next_id` draws fresh
object identities for newly created positions. -/
structure Executor where
  cash : ℚ
  transaction_cost : ℚ
  leverage : ℚ
  trailing_pct : Option ℚ
  slippage_pct : ℚ
  risk_per_trade : ℚ
  positions : List Position
  history : List Tx
  next_id : ℕ
deriving DecidableEq, Repr

/-- `TradingExecutor.get_total_portfolio_value`: cash plus the unrealized
profit or loss of every open position at the current price. -/
def get_total_portfolio_value (e : Executor) (current_price : ℚ) : ℚ :=
e.cash + e.positions.foldl
  (fun acc p =>
    acc + match p.type with
          | .long => (current_price - p.entry_price) * p.amount
          | .short => (p.entry_price - current_price) * p.amount) 0

/-- `TradingExecutor.close_position` of `sofware/executor.py`: slippage makes
the exit worse (a long receives less, a short pays more), proceeds are
`adjusted_price * amount * (1 - transaction_cost)`, and the position object is
removed from the open list (first identity match; the `list.remove` failure on
a missing object is caught and logged, leaving the cash and history mutations
in place, which `List.eraseP` reproduces as a no-op removal). -/
def close_position (e : Executor) (position : Position) (price : ℚ) (date : ℕ) :
    Executor :=
let adjusted_price := match position.type with
                      | .long => price * (1 - e.slippage_pct)
                      | .short => price * (1 + e.slippage_pct)
let proceeds := adjusted_price * position.amount * (1 - e.transaction_cost)
let p' := position.close adjusted_price date
{ e with cash := e.cash + proceeds,
         history := e.history ++
           [Tx.closeTx position.type adjusted_price position.amount date
             p'.profit_loss],
         positions := e.positions.eraseP (fun q => q.id == position.id) }

/-- The tail of `TradingExecutor.open_position` after the size-reduction
block: the `if position_size <= 0` guard followed by the state mutation
(margin debited from cash, fresh position appended, open record appended). -/
def commit_open (e : Executor) (position_type : Side) (price : ℚ) (date : ℕ)
    (stop_loss take_profit position_size margin_required : ℚ) : Executor :=
if position_size ≤ 0 then e
else
  { e with cash := e.cash - margin_required,
           positions := e.positions ++
             [Position.create e.next_id position_type position_size price
               date (some stop_loss) (some take_profit)],
           history := e.history ++
             [Tx.openTx position_type price position_size date],
           next_id := e.next_id + 1 }

/-- The stop-loss level of the entry branch of `open_position`
(`price * (1 -+ stop_loss_pct)` by side). -/
def entry_stop_loss (position_type : Side) (price stop_loss_pct : ℚ) : ℚ :=
match position_type with
| .long => price * (1 - stop_loss_pct)
| .short => price * (1 + stop_loss_pct)

/-- The take-profit level of the entry branch of `open_position`
(`price * (1 +- take_profit_pct)` by side). -/
def entry_take_profit (position_type : Side) (price take_profit_pct : ℚ) : ℚ :=
match position_type with
| .long => price * (1 + take_profit_pct)
| .short => price * (1 - take_profit_pct)

/-- The slippage-adjusted entry price of `open_position`
(`price * (1 +- slippage_pct)` by side). -/
def entry_adjusted_price (position_type : Side) (price slippage_pct : ℚ) : ℚ :=
match position_type with
| .long => price * (1 + slippage_pct)
| .short => price * (1 - slippage_pct)

/-- `TradingExecutor.open_position` of `sofware/executor.py`.  Every division
of the source is guarded by an explicit zero test returning the unchanged
state, modelling the `ZeroDivisionError` swallowed by the broad `except`
block before any state mutation has happened. -/
def open_position (e : Executor) (position_type : Side) (price : ℚ) (date : ℕ)
    (stop_loss_pct take_profit_pct : ℚ) : Executor :=
if stop_loss_pct ≤ 0 ∨ take_profit_pct ≤ 0 then e
else
  let atr_stop_loss_dollar := stop_loss_pct * price
  let equity := get_total_portfolio_value e price
  let risk_amount := equity * e.risk_per_trade
  if atr_stop_loss_dollar = 0 then e
  else
    let position_size := risk_amount / atr_stop_loss_dollar
    if position_size ≤ 0 then e
    else
      let stop_loss := entry_stop_loss position_type price stop_loss_pct
      let take_profit := entry_take_profit position_type price take_profit_pct
      let adjusted_price := entry_adjusted_price position_type price
        e.slippage_pct
      let total_cost := adjusted_price * position_size * (1 + e.transaction_cost)
      if e.leverage = 0 then e
      else
        let margin_required := total_cost / e.leverage
        if margin_required > e.cash then
          if price * (1 + e.transaction_cost) = 0 then e
          else
            let position_size := e.cash * e.leverage /
              (price * (1 + e.transaction_cost))
            let total_cost := price * position_size * (1 + e.transaction_cost)
            let margin_required := total_cost / e.leverage
            commit_open e position_type price date stop_loss take_profit
              position_size margin_required
        else
          commit_open e position_type price date stop_loss take_profit
            position_size margin_required

/-- `TradingExecutor.check_positions`: iterates over a snapshot
(`self.positions[:]`) of the open list and closes every position whose exit
conditions are met against the bar's high and low. -/
def check_positions (e : Executor) (price : ℚ) (date : ℕ)
    (high_price low_price : ℚ) : Executor :=
e.positions.foldl
  (fun acc p =>
    if p.check_exit_conditions high_price low_price then
      close_position acc p price date
    else acc) e

/-- `TradingExecutor.execute_signal` of `sofware/executor.py`.  The divisions
`atr_stop_loss / price` and `atr_take_profit / price` happen at the call sites
of `open_position`, outside any `try` block, so a zero price there aborts the
run (`Except.error`). -/
def execute_signal (e : Executor) (signal : ℤ) (price : ℚ) (date : ℕ)
    (high_price low_price atr_stop_loss atr_take_profit : ℚ) :
    Except String Executor :=
let e1 := check_positions e price date high_price low_price
if signal = 1 then
  let e2 := (e1.positions.filter (fun p => decide (p.type = Side.short))).foldl
    (fun acc p => close_position acc p price date) e1
  if e2.positions.any (fun p => decide (p.type = Side.long)) then Except.ok e2
  else if price = 0 then Except.error "ZeroDivisionError"
  else Except.ok (open_position e2 .long price date (atr_stop_loss / price)
    (atr_take_profit / price))
else if signal = -1 then
  let e2 := (e1.positions.filter (fun p => decide (p.type = Side.long))).foldl
    (fun acc p => close_position acc p price date) e1
  if e2.positions.any (fun p => decide (p.type = Side.short)) then Except.ok e2
  else if price = 0 then Except.error "ZeroDivisionError"
  else Except.ok (open_position e2 .short price date (atr_stop_loss / price)
    (atr_take_profit / price))
else Except.ok e1

/-- An open position of the given side exists in the book (statement-level
predicate used by the claims about the one-side-at-a-time policy). -/
def openSideExists (e : Executor) (s : Side) : Prop :=
∃ p ∈ e.positions, p.type = s ∧ p.closed = false

instance (e : Executor) (s : Side) : Decidable (openSideExists e s) := by
unfold openSideExists
infer_instance

/-- Declarative exit predicate: the epsilon-tolerant trigger condition on all
four comparisons, stated independently of the control flow of
`check_exit_conditions` (used by the claim about the Exit Monitor). -/
def exit_trigger (p : Position) (high_price low_price : ℚ) : Prop :=
match p.type with
| .long =>
    (∃ sl, p.stop_loss = some sl ∧ low_price ≤ sl + epsilon) ∨
    (∃ tp, p.take_profit = some tp ∧ high_price ≥ tp - epsilon)
| .short =>
    (∃ sl, p.stop_loss = some sl ∧ high_price ≥ sl - epsilon) ∨
    (∃ tp, p.take_profit = some tp ∧ low_price ≤ tp + epsilon)

end SF

/-! ## Helper lemmas -/

lemma pyRound0_ge_floor (y : ℚ) : ⌊y⌋ ≤ pyRound0 y := by
simp only [pyRound0]
split
· exact le_refl _
· split
  · exact le_of_lt (lt_add_one _)
  · split
    · exact le_refl _
    · exact le_of_lt (lt_add_one _)

lemma pyRound0_nonneg (y : ℚ) (h : 0 ≤ y) : 0 ≤ pyRound0 y :=
le_trans (Int.floor_nonneg.mpr h) (pyRound0_ge_floor y)

lemma round2_nonneg (x : ℚ) (h : 0 ≤ x) : 0 ≤ round2 x := by
unfold round2
have h0 : (0 : ℚ) ≤ (pyRound0 (x * 100) : ℚ) := by
  exact_mod_cast pyRound0_nonneg (x * 100) (by positivity)
positivity

lemma update_trailing_stop_type (p : SW.Position) (price s : ℚ) :
    (SW.update_trailing_stop p price s).type = p.type := by
unfold SW.update_trailing_stop
cases h : p.type <;> dsimp only <;> split <;> first | rfl | exact h

lemma update_trailing_stop_long_le (p : SW.Position) (price s : ℚ)
    (h : p.type = Side.long) :
    p.stop_loss_price ≤ (SW.update_trailing_stop p price s).stop_loss_price := by
unfold SW.update_trailing_stop
rw [h]
dsimp only
split
· next hgt => exact le_of_lt hgt
· exact le_refl _

lemma update_trailing_stop_short_le (p : SW.Position) (price s : ℚ)
    (h : p.type = Side.short) :
    (SW.update_trailing_stop p price s).stop_loss_price ≤ p.stop_loss_price := by
unfold SW.update_trailing_stop
rw [h]
dsimp only
split
· next hlt => exact le_of_lt hlt
· exact le_refl _

lemma foldl_trailing_stop_long_le (updates : List (ℚ × ℚ)) (p : SW.Position)
    (h : p.type = Side.long) :
    p.stop_loss_price ≤
      (updates.foldl (fun q u => SW.update_trailing_stop q u.1 u.2)
        p).stop_loss_price := by
induction updates generalizing p with
| nil => exact le_refl _
| cons u us ih =>
    refine le_trans (update_trailing_stop_long_le p u.1 u.2 h) ?_
    exact ih _ ((update_trailing_stop_type p u.1 u.2).trans h)

lemma foldl_trailing_stop_short_le (updates : List (ℚ × ℚ)) (p : SW.Position)
    (h : p.type = Side.short) :
    (updates.foldl (fun q u => SW.update_trailing_stop q u.1 u.2)
        p).stop_loss_price ≤ p.stop_loss_price := by
induction updates generalizing p with
| nil => exact le_refl _
| cons u us ih =>
    refine le_trans ?_ (update_trailing_stop_short_le p u.1 u.2 h)
    exact ih _ ((update_trailing_stop_type p u.1 u.2).trans h)

lemma commit_open_spec (e : SF.Executor) (pt : Side) (price : ℚ) (date : ℕ)
    (stop tp size margin : ℚ) :
    (size ≤ 0 ∧ SF.commit_open e pt price date stop tp size margin = e) ∨
    (0 < size ∧
      (SF.commit_open e pt price date stop tp size margin).cash =
        e.cash - margin ∧
      (SF.commit_open e pt price date stop tp size margin).positions =
        e.positions ++
          [SF.Position.create e.next_id pt size price date (some stop)
            (some tp)] ∧
      (SF.commit_open e pt price date stop tp size margin).history =
        e.history ++ [SF.Tx.openTx pt price size date]) := by
simp only [SF.commit_open]
split
· next h => exact Or.inl ⟨h, rfl⟩
· next h => exact Or.inr ⟨not_le.mp h, rfl, rfl, rfl⟩

/-! ## Claim theorems -/

/-- Claim C1: closing a `Position` of positive quantity at `exit_price` sets
`realized_pnl` to `(exit - entry) * quantity` for a Long and
`(entry - exit) * quantity` for a Short; the pnl is positive for a Long closed
above entry or a Short closed below entry, and zero when the exit equals the
entry. -/
theorem C1_close_realized_pnl (p : SW.Position) (exit_price : ℚ) (exit_date : ℕ)
    (hopen : p.closed = false) (hq : 0 < p.amount) :
    ∃ p', p.close exit_price exit_date = Except.ok p' ∧
      (p.type = Side.long → p'.pnl = (exit_price - p.entry_price) * p.amount) ∧
      (p.type = Side.short → p'.pnl = (p.entry_price - exit_price) * p.amount) ∧
      (p.type = Side.long → p.entry_price < exit_price → 0 < p'.pnl) ∧
      (p.type = Side.short → exit_price < p.entry_price → 0 < p'.pnl) ∧
      (exit_price = p.entry_price → p'.pnl = 0) := by
have hclose : p.close exit_price exit_date = Except.ok
    { p with exit_price := some exit_price, exit_date := some exit_date,
             closed := true,
             pnl := match p.type with
                    | Side.long => (exit_price - p.entry_price) * p.amount
                    | Side.short => (p.entry_price - exit_price) * p.amount } := by
  simp [SW.Position.close, hopen]
refine ⟨_, hclose, ?_, ?_, ?_, ?_, ?_⟩
· intro ht; simp only [ht]
· intro ht; simp only [ht]
· intro ht hlt
  simp only [ht]
  exact mul_pos (by linarith) hq
· intro ht hlt
  simp only [ht]
  exact mul_pos (by linarith) hq
· intro he
  cases ht : p.type <;> simp only [ht, he, sub_self, zero_mul]

/-- Witness for C1 at a concrete Long position closed above entry. -/
theorem C1_close_realized_pnl_witness :
    (SW.Position.create 0 Side.long 10 100 1).closed = false ∧
    (0 : ℚ) < (SW.Position.create 0 Side.long 10 100 1).amount ∧
    ∃ p', (SW.Position.create 0 Side.long 10 100 1).close 110 2 = Except.ok p' ∧
      ((SW.Position.create 0 Side.long 10 100 1).type = Side.long →
        p'.pnl = (110 - (SW.Position.create 0 Side.long 10 100 1).entry_price) *
          (SW.Position.create 0 Side.long 10 100 1).amount) ∧
      ((SW.Position.create 0 Side.long 10 100 1).type = Side.short →
        p'.pnl = ((SW.Position.create 0 Side.long 10 100 1).entry_price - 110) *
          (SW.Position.create 0 Side.long 10 100 1).amount) ∧
      ((SW.Position.create 0 Side.long 10 100 1).type = Side.long →
        (SW.Position.create 0 Side.long 10 100 1).entry_price < 110 →
        0 < p'.pnl) ∧
      ((SW.Position.create 0 Side.long 10 100 1).type = Side.short →
        (110 : ℚ) < (SW.Position.create 0 Side.long 10 100 1).entry_price →
        0 < p'.pnl) ∧
      ((110 : ℚ) = (SW.Position.create 0 Side.long 10 100 1).entry_price →
        p'.pnl = 0) :=
⟨rfl, by norm_num [SW.Position.create],
  C1_close_realized_pnl (SW.Position.create 0 Side.long 10 100 1) 110 2 rfl
    (by norm_num [SW.Position.create])⟩

/-- Claim C10: `calculate_size_in_usd` divides by the stop distance with no
guard, so a zero stop distance (`stop_loss_price = adjusted_price`) fails with
a division-by-zero error instead of returning a quantity; with a nonzero
adjusted price and a nonzero stop distance it returns a quantity. -/
theorem C10_sizer_division_by_zero
    (account_size risk_per_trade adjusted_price stop_loss_price : ℚ) :
    (stop_loss_price = adjusted_price →
      calculate_size_in_usd account_size risk_per_trade adjusted_price
        stop_loss_price = none) ∧
    (adjusted_price ≠ 0 → stop_loss_price ≠ adjusted_price →
      (calculate_size_in_usd account_size risk_per_trade adjusted_price
        stop_loss_price).isSome = true) := by
constructor
· intro h
  unfold calculate_size_in_usd
  by_cases h0 : adjusted_price = 0
  · simp [h0]
  · simp [h0, h]
· intro h0 hne
  have habs : |adjusted_price - stop_loss_price| ≠ 0 := by
    simp only [abs_ne_zero]
    exact sub_ne_zero.mpr (Ne.symm hne)
  unfold calculate_size_in_usd
  simp [h0, div_eq_zero_iff, habs]

/-- Witness for C10: the doctest input of the source
(`account_size=3000, risk=0.02, adjusted=8611.5, stop=8611.5` forced to the
zero-distance corner) fails, and a separated stop succeeds. -/
theorem C10_sizer_division_by_zero_witness :
    calculate_size_in_usd 3000 (2/100) (86115/10) (86115/10) = none ∧
    (calculate_size_in_usd 3000 (2/100) (86115/10) (91565/10)).isSome = true :=
⟨(C10_sizer_division_by_zero 3000 (2/100) (86115/10) (86115/10)).1 rfl,
 (C10_sizer_division_by_zero 3000 (2/100) (86115/10) (91565/10)).2
   (by norm_num) (by norm_num)⟩

/-- Claim C2 counterexample: with equity 100, risk 1/100, adjusted price 1 and
stop 3 the claimed fallback condition holds
(`stop_distance_fraction * price = 2 > 1 = equity * risk`), so the claim
predicts a quantity of `equity / price = 100`; the code has no fallback branch
and returns `1/2`. -/
theorem C2_sizing_fallback_counterexample :
    calculate_size_in_usd 100 (1/100) 1 3 = some (1/2) ∧
    (|(1 : ℚ) - 3| / 1) * 1 > 100 * (1/100) ∧
    (1/2 : ℚ) ≠ 100 / 1 := by
refine ⟨?_, by norm_num, by norm_num⟩
norm_num [calculate_size_in_usd, round2, pyRound0]

/-- Claim C2 (amended): the sizer has no `equity / price` fallback; for every
positive equity, risk fraction and adjusted price with a nonzero stop
distance, the computed quantity equals
`round2 (equity * risk / (stop_distance / adjusted_price))`, i.e.
`round2 (equity * risk * adjusted_price / stop_distance)`, in all cases,
including when the dollar stop exceeds the risk amount; the pre-rounding
quantity is strictly positive and the returned quantity is nonnegative (it can
round to zero when the pre-rounding value is below 1/200). -/
theorem C2_sizing_no_fallback
    (account_size risk_per_trade adjusted_price stop_loss_price : ℚ)
    (ha : 0 < account_size) (hr : 0 < risk_per_trade)
    (hp : 0 < adjusted_price) (hs : stop_loss_price ≠ adjusted_price) :
    calculate_size_in_usd account_size risk_per_trade adjusted_price
        stop_loss_price =
      some (round2 (account_size * risk_per_trade * adjusted_price /
        |adjusted_price - stop_loss_price|)) ∧
    0 < account_size * risk_per_trade * adjusted_price /
        |adjusted_price - stop_loss_price| ∧
    0 ≤ round2 (account_size * risk_per_trade * adjusted_price /
        |adjusted_price - stop_loss_price|) := by
have habs : 0 < |adjusted_price - stop_loss_price| :=
  abs_pos.mpr (sub_ne_zero.mpr (Ne.symm hs))
have hpos : 0 < account_size * risk_per_trade * adjusted_price /
    |adjusted_price - stop_loss_price| := by positivity
refine ⟨?_, hpos, round2_nonneg _ (le_of_lt hpos)⟩
simp only [calculate_size_in_usd]
rw [if_neg hp.ne']
rw [if_neg (by rw [div_eq_zero_iff]; push_neg; exact ⟨habs.ne', hp.ne'⟩)]
rw [div_div_eq_mul_div]

/-- Witness for C2 (amended) at equity 100, risk 1/100, adjusted price 1,
stop 3 — the same input as the counterexample, where the dollar stop exceeds
the risk amount. -/
theorem C2_sizing_no_fallback_witness :
    calculate_size_in_usd 100 (1/100) 1 3 =
      some (round2 (100 * (1/100) * 1 / |(1 : ℚ) - 3|)) ∧
    (0 : ℚ) < 100 * (1/100) * 1 / |(1 : ℚ) - 3| ∧
    (0 : ℚ) ≤ round2 (100 * (1/100) * 1 / |(1 : ℚ) - 3|) :=
C2_sizing_no_fallback 100 (1/100) 1 3 (by norm_num) (by norm_num)
  (by norm_num) (by norm_num)

/-- Claim C8: a trailing-stop update never loosens the stop: for a Long the
stop-loss price never decreases, for a Short it never increases, both for a
single update and across every sequence of updates. -/
theorem C8_trailing_stop_monotone (p : SW.Position) (price s : ℚ)
    (updates : List (ℚ × ℚ)) :
    (p.type = Side.long →
      p.stop_loss_price ≤
        (SW.update_trailing_stop p price s).stop_loss_price ∧
      p.stop_loss_price ≤
        (updates.foldl (fun q u => SW.update_trailing_stop q u.1 u.2)
          p).stop_loss_price) ∧
    (p.type = Side.short →
      (SW.update_trailing_stop p price s).stop_loss_price ≤
        p.stop_loss_price ∧
      (updates.foldl (fun q u => SW.update_trailing_stop q u.1 u.2)
          p).stop_loss_price ≤ p.stop_loss_price) := by
constructor
· intro h
  exact ⟨update_trailing_stop_long_le p price s h,
    foldl_trailing_stop_long_le updates p h⟩
· intro h
  exact ⟨update_trailing_stop_short_le p price s h,
    foldl_trailing_stop_short_le updates p h⟩

/-- Witness for C8 at a concrete Long position with stop 90 and the update
sequence [(110, 100), (105, 95)]. -/
theorem C8_trailing_stop_monotone_witness :
    (({ SW.Position.create 0 Side.long 1 100 1 with stop_loss_price := 90 }
        : SW.Position).type = Side.long →
      ({ SW.Position.create 0 Side.long 1 100 1 with stop_loss_price := 90 }
          : SW.Position).stop_loss_price ≤
        (SW.update_trailing_stop
          { SW.Position.create 0 Side.long 1 100 1 with stop_loss_price := 90 }
          110 100).stop_loss_price ∧
      ({ SW.Position.create 0 Side.long 1 100 1 with stop_loss_price := 90 }
          : SW.Position).stop_loss_price ≤
        (([((110 : ℚ), (100 : ℚ)), (105, 95)]).foldl
          (fun q u => SW.update_trailing_stop q u.1 u.2)
          { SW.Position.create 0 Side.long 1 100 1 with
            stop_loss_price := 90 }).stop_loss_price) ∧
    (({ SW.Position.create 0 Side.long 1 100 1 with stop_loss_price := 90 }
        : SW.Position).type = Side.short →
      (SW.update_trailing_stop
          { SW.Position.create 0 Side.long 1 100 1 with stop_loss_price := 90 }
          110 100).stop_loss_price ≤
        ({ SW.Position.create 0 Side.long 1 100 1 with stop_loss_price := 90 }
          : SW.Position).stop_loss_price ∧
      (([((110 : ℚ), (100 : ℚ)), (105, 95)]).foldl
          (fun q u => SW.update_trailing_stop q u.1 u.2)
          { SW.Position.create 0 Side.long 1 100 1 with
            stop_loss_price := 90 }).stop_loss_price ≤
        ({ SW.Position.create 0 Side.long 1 100 1 with stop_loss_price := 90 }
          : SW.Position).stop_loss_price) :=
C8_trailing_stop_monotone
  { SW.Position.create 0 Side.long 1 100 1 with stop_loss_price := 90 }
  110 100 [((110 : ℚ), (100 : ℚ)), (105, 95)]

/-- Claim C3 fails on the code: `software/executor.py` credits only the
slippage-adjusted price on close (no quantity factor, no transaction-cost
factor), and `calculate_proceeds` takes no quantity argument, contradicting
its own doctest (`amount=100, adjusted_price=100, cost=0.01` expecting
`9900.0`).  At a long position of quantity 10, entry 100, closed at 100 with
1% transaction cost and zero slippage, the executor credits 100 instead of
`100 * 10 * (1 - 1/100) = 990`; the `sofware/executor.py` variant credits
exactly the claimed amount. -/
theorem C3_close_proceeds_drop_quantity :
    SW.close_position
      { cash := 1000, transaction_cost := 1/100, leverage := 1,
        slippage_pct := 0, risk_per_trade := 2/100,
        positions := [{ SW.Position.create 0 Side.long 10 100 1 with
          stop_loss_price := 95 }],
        history := [] }
      { SW.Position.create 0 Side.long 10 100 1 with stop_loss_price := 95 }
      100 2 = Except.ok
      { cash := 1000 + 100, transaction_cost := 1/100, leverage := 1,
        slippage_pct := 0, risk_per_trade := 2/100, positions := [],
        history := [SW.Tx.closeTx Side.long 100 2 0] } ∧
    (100 : ℚ) * 10 * (1 - 1/100) = 990 ∧
    (1000 : ℚ) + 100 ≠ 1000 + 990 ∧
    calculate_proceeds 100 (1/100) = 99 ∧
    (SF.close_position
      { cash := 1000, transaction_cost := 1/100, leverage := 1,
        trailing_pct := none, slippage_pct := 0, risk_per_trade := 2/100,
        positions := [SF.Position.create 0 Side.long 10 100 1 (some 95)
          (some 110)],
        history := [], next_id := 1 }
      (SF.Position.create 0 Side.long 10 100 1 (some 95) (some 110))
      100 2).cash = 1000 + 990 := by
refine ⟨?_, by norm_num, by norm_num, by norm_num [calculate_proceeds], ?_⟩
· norm_num [SW.close_position, SW.Position.close, SW.Position.create,
    apply_slippage]
· norm_num [SF.close_position, SF.Position.close, SF.Position.create]

/-- Claim C9: closing an already-closed `Position` fails with the
already-closed error; closing an open position succeeds, marks it closed, and
removes it from the open set synchronously in the same operation (the
resulting open set is the erasure of that position, a subset of the previous
open set); and as long as every listed position is open, `close_position`
never propagates the error to the caller, and every position still listed
afterwards is still open. -/
theorem C9_single_close_discipline :
    (∀ (p : SW.Position) (exit_price : ℚ) (exit_date : ℕ), p.closed = true →
      p.close exit_price exit_date =
        Except.error "Position is already closed") ∧
    (∀ (e : SW.Executor) (p : SW.Position) (price : ℚ) (date : ℕ),
      p.closed = false →
      ∃ e', SW.close_position e p price date = Except.ok e' ∧
        e'.positions = e.positions.eraseP (fun q => q.id == p.id) ∧
        ∀ q ∈ e'.positions, q ∈ e.positions) ∧
    (∀ (e : SW.Executor) (p : SW.Position) (price : ℚ) (date : ℕ),
      (∀ q ∈ e.positions, q.closed = false) → p.closed = false →
      ∃ e', SW.close_position e p price date = Except.ok e' ∧
        ∀ q ∈ e'.positions, q.closed = false) := by
have hb : ∀ (e : SW.Executor) (p : SW.Position) (price : ℚ) (date : ℕ),
    p.closed = false →
    ∃ e', SW.close_position e p price date = Except.ok e' ∧
      e'.positions = e.positions.eraseP (fun q => q.id == p.id) ∧
      ∀ q ∈ e'.positions, q ∈ e.positions := by
  intro e p price date h
  simp only [SW.close_position, SW.Position.close, h, Bool.false_eq_true,
    if_false]
  refine ⟨_, rfl, rfl, ?_⟩
  intro q hq
  exact (List.eraseP_sublist _).subset hq
refine ⟨?_, hb, ?_⟩
· intro p exit_price exit_date h
  simp [SW.Position.close, h]
· intro e p price date hinv h
  obtain ⟨e', hok, _, hsub⟩ := hb e p price date h
  exact ⟨e', hok, fun q hq => hinv q (hsub q hq)⟩

/-- Witness for C9: a double close errors on a concrete closed position, and a
concrete open position is closed, erased and leaves only open positions. -/
theorem C9_single_close_discipline_witness :
    ({ SW.Position.create 0 Side.long 10 100 1 with closed := true }
        : SW.Position).close 110 2 =
      Except.error "Position is already closed" ∧
    (∃ e', SW.close_position
        { cash := 1000, transaction_cost := 0, leverage := 1,
          slippage_pct := 0, risk_per_trade := 2/100,
          positions := [SW.Position.create 0 Side.long 10 100 1],
          history := [] }
        (SW.Position.create 0 Side.long 10 100 1) 110 2 = Except.ok e' ∧
      e'.positions = [SW.Position.create 0 Side.long 10 100 1].eraseP
        (fun q => q.id == (SW.Position.create 0 Side.long 10 100 1).id) ∧
      ∀ q ∈ e'.positions, q ∈ [SW.Position.create 0 Side.long 10 100 1]) ∧
    (∃ e', SW.close_position
        { cash := 1000, transaction_cost := 0, leverage := 1,
          slippage_pct := 0, risk_per_trade := 2/100,
          positions := [SW.Position.create 0 Side.long 10 100 1],
          history := [] }
        (SW.Position.create 0 Side.long 10 100 1) 110 2 = Except.ok e' ∧
      ∀ q ∈ e'.positions, q.closed = false) :=
⟨C9_single_close_discipline.1
    { SW.Position.create 0 Side.long 10 100 1 with closed := true } 110 2 rfl,
 C9_single_close_discipline.2.1
    { cash := 1000, transaction_cost := 0, leverage := 1, slippage_pct := 0,
      risk_per_trade := 2/100,
      positions := [SW.Position.create 0 Side.long 10 100 1], history := [] }
    (SW.Position.create 0 Side.long 10 100 1) 110 2 rfl,
 C9_single_close_discipline.2.2
    { cash := 1000, transaction_cost := 0, leverage := 1, slippage_pct := 0,
      risk_per_trade := 2/100,
      positions := [SW.Position.create 0 Side.long 10 100 1], history := [] }
    (SW.Position.create 0 Side.long 10 100 1) 110 2
    (by intro q hq; simp at hq; simp [hq, SW.Position.create]) rfl⟩

/-- Claim C7 counterexample: a Long with stop 1 and take-profit 100, on a bar
with low 50 and high `100 - 1/2000000`, satisfies neither `low <= stop_loss`
(not even with the epsilon tolerance) nor `high >= take_profit`, yet
`check_exit_conditions` signals a close, because the code applies the epsilon
tolerance to the take-profit comparison as well. -/
theorem C7_exit_monitor_counterexample :
    SF.Position.check_exit_conditions
      (SF.Position.create 0 Side.long 1 50 1 (some 1) (some 100))
      (199999999/2000000) 50 = true ∧
    ¬((50 : ℚ) ≤ 1) ∧
    ¬((199999999/2000000 : ℚ) ≥ 100) ∧
    ¬((50 : ℚ) ≤ 1 + SF.epsilon) := by
refine ⟨?_, by norm_num, by norm_num, by norm_num [SF.epsilon]⟩
norm_num [SF.Position.check_exit_conditions, SF.Position.create, SF.epsilon]

/-- Claim C7 (amended): for every open position, `check_exit_conditions`
signals a close exactly when the epsilon-tolerant trigger holds, the epsilon
applying to all four comparisons: a Long closes iff `low <= stop_loss + eps`
or `high >= take_profit - eps`, a Short closes iff `high >= stop_loss - eps`
or `low <= take_profit + eps` (with `eps = 1e-6`, and only over the stop and
take-profit levels that are actually set); a closed position never signals. -/
theorem C7_exit_monitor_epsilon (p : SF.Position) (high_price low_price : ℚ)
    (hopen : p.closed = false) :
    SF.Position.check_exit_conditions p high_price low_price = true ↔
      SF.exit_trigger p high_price low_price := by
unfold SF.Position.check_exit_conditions SF.exit_trigger
cases h : p.type <;>
  rcases hsl : p.stop_loss with _ | sl <;>
  rcases htp : p.take_profit with _ | tp <;>
  simp [hopen, h, hsl, htp]

/-- Witness for C7 (amended) at a concrete open Long whose stop is hit within
the epsilon tolerance. -/
theorem C7_exit_monitor_epsilon_witness :
    SF.Position.check_exit_conditions
      (SF.Position.create 0 Side.long 1 100 1 (some 95) (some 110))
      100 94 = true ↔
    SF.exit_trigger
      (SF.Position.create 0 Side.long 1 100 1 (some 95) (some 110))
      100 94 :=
C7_exit_monitor_epsilon
  (SF.Position.create 0 Side.long 1 100 1 (some 95) (some 110)) 100 94 rfl

/-- Claim C4: when the required margin
(`adjusted_price * quantity * (1 + transaction_cost) / leverage`) exceeds
available cash, `open_position` retries exactly once with a reduced quantity
recomputed from all available cash
(`cash * leverage / (price * (1 + transaction_cost))`); if the reduced
quantity is still not positive the call returns with the state exactly as it
was, and otherwise the reduced position is opened (one position and one open
record appended, the margin debit consuming the cash to exactly zero). -/
theorem C4_insufficient_margin_retry (e : SF.Executor) (position_type : Side)
    (price : ℚ) (date : ℕ) (stop_loss_pct take_profit_pct : ℚ)
    (hsl : 0 < stop_loss_pct) (htp : 0 < take_profit_pct)
    (hatr : stop_loss_pct * price ≠ 0)
    (hsize : 0 < SF.get_total_portfolio_value e price * e.risk_per_trade /
      (stop_loss_pct * price))
    (hlev : e.leverage ≠ 0)
    (hden : price * (1 + e.transaction_cost) ≠ 0)
    (hmargin : SF.entry_adjusted_price position_type price e.slippage_pct *
        (SF.get_total_portfolio_value e price * e.risk_per_trade /
          (stop_loss_pct * price)) * (1 + e.transaction_cost) / e.leverage
        > e.cash) :
    (e.cash * e.leverage / (price * (1 + e.transaction_cost)) ≤ 0 →
      SF.open_position e position_type price date stop_loss_pct
        take_profit_pct = e) ∧
    (0 < e.cash * e.leverage / (price * (1 + e.transaction_cost)) →
      (SF.open_position e position_type price date stop_loss_pct
        take_profit_pct).cash = 0 ∧
      (SF.open_position e position_type price date stop_loss_pct
        take_profit_pct).positions = e.positions ++
        [SF.Position.create e.next_id position_type
          (e.cash * e.leverage / (price * (1 + e.transaction_cost))) price
          date
          (some (SF.entry_stop_loss position_type price stop_loss_pct))
          (some (SF.entry_take_profit position_type price take_profit_pct))] ∧
      (SF.open_position e position_type price date stop_loss_pct
        take_profit_pct).history = e.history ++
        [SF.Tx.openTx position_type price
          (e.cash * e.leverage / (price * (1 + e.transaction_cost))) date]) := by
have hred : SF.open_position e position_type price date stop_loss_pct
    take_profit_pct =
    SF.commit_open e position_type price date
      (SF.entry_stop_loss position_type price stop_loss_pct)
      (SF.entry_take_profit position_type price take_profit_pct)
      (e.cash * e.leverage / (price * (1 + e.transaction_cost)))
      (price * (e.cash * e.leverage / (price * (1 + e.transaction_cost))) *
        (1 + e.transaction_cost) / e.leverage) := by
  simp only [SF.open_position]
  rw [if_neg (by push_neg; exact ⟨hsl, htp⟩)]
  rw [if_neg hatr]
  rw [if_neg (not_le.mpr hsize)]
  rw [if_neg hlev]
  rw [if_pos hmargin]
  rw [if_neg hden]
have hm2 : price * (e.cash * e.leverage / (price * (1 + e.transaction_cost))) *
    (1 + e.transaction_cost) / e.leverage = e.cash := by
  field_simp
  ring
rcases commit_open_spec e position_type price date
    (SF.entry_stop_loss position_type price stop_loss_pct)
    (SF.entry_take_profit position_type price take_profit_pct)
    (e.cash * e.leverage / (price * (1 + e.transaction_cost)))
    (price * (e.cash * e.leverage / (price * (1 + e.transaction_cost))) *
      (1 + e.transaction_cost) / e.leverage) with
  ⟨hs, heq⟩ | ⟨hs, hcash, hpositions, hhist⟩
· constructor
  · intro _
    rw [hred, heq]
  · intro hpos
    exact absurd hpos (not_lt.mpr hs)
· constructor
  · intro hle
    exact absurd hs (not_lt.mpr hle)
  · intro _
    refine ⟨?_, ?_, ?_⟩
    · rw [hred, hcash, hm2, sub_self]
    · rw [hred, hpositions]
    · rw [hred, hhist]

/-- Witness for C4 at a concrete executor with cash 10 and a nominal margin of
1000: the one retry reopens with the reduced quantity 1/10 and the cash is
consumed to exactly zero. -/
theorem C4_insufficient_margin_retry_witness :
    (((10 : ℚ) * 1 / (100 * (1 + 0)) ≤ 0 →
      SF.open_position
        { cash := 10, transaction_cost := 0, leverage := 1,
          trailing_pct := none, slippage_pct := 0, risk_per_trade := 1,
          positions := [], history := [], next_id := 0 }
        Side.long 100 1 (1/100) (1/100) =
        { cash := 10, transaction_cost := 0, leverage := 1,
          trailing_pct := none, slippage_pct := 0, risk_per_trade := 1,
          positions := [], history := [], next_id := 0 }) ∧
    (0 < (10 : ℚ) * 1 / (100 * (1 + 0)) →
      (SF.open_position
        { cash := 10, transaction_cost := 0, leverage := 1,
          trailing_pct := none, slippage_pct := 0, risk_per_trade := 1,
          positions := [], history := [], next_id := 0 }
        Side.long 100 1 (1/100) (1/100)).cash = 0 ∧
      (SF.open_position
        { cash := 10, transaction_cost := 0, leverage := 1,
          trailing_pct := none, slippage_pct := 0, risk_per_trade := 1,
          positions := [], history := [], next_id := 0 }
        Side.long 100 1 (1/100) (1/100)).positions = [] ++
        [SF.Position.create 0 Side.long ((10 : ℚ) * 1 / (100 * (1 + 0))) 100 1
          (some (SF.entry_stop_loss Side.long 100 (1/100)))
          (some (SF.entry_take_profit Side.long 100 (1/100)))] ∧
      (SF.open_position
        { cash := 10, transaction_cost := 0, leverage := 1,
          trailing_pct := none, slippage_pct := 0, risk_per_trade := 1,
          positions := [], history := [], next_id := 0 }
        Side.long 100 1 (1/100) (1/100)).history = [] ++
        [SF.Tx.openTx Side.long 100 ((10 : ℚ) * 1 / (100 * (1 + 0))) 1])) :=
C4_insufficient_margin_retry
  { cash := 10, transaction_cost := 0, leverage := 1, trailing_pct := none,
    slippage_pct := 0, risk_per_trade := 1, positions := [], history := [],
    next_id := 0 }
  Side.long 100 1 (1/100) (1/100) (by norm_num) (by norm_num) (by norm_num)
  (by norm_num [SF.get_total_portfolio_value]) (by norm_num) (by norm_num)
  (by norm_num [SF.get_total_portfolio_value, SF.entry_adjusted_price])

/-- Claim C6: `open_position` either leaves the book unchanged or opens
exactly one position, and after every successful open the cash is
nonnegative: the margin debit is bounded by the cash when the margin check
passes, and the one size-reduction retry consumes the cash to exactly zero. -/
theorem C6_open_position_cash_nonneg (e : SF.Executor) (position_type : Side)
    (price : ℚ) (date : ℕ) (stop_loss_pct take_profit_pct : ℚ) :
    (SF.open_position e position_type price date stop_loss_pct
        take_profit_pct).positions = e.positions ∨
    (0 ≤ (SF.open_position e position_type price date stop_loss_pct
        take_profit_pct).cash ∧
      ∃ p, (SF.open_position e position_type price date stop_loss_pct
        take_profit_pct).positions = e.positions ++ [p]) := by
simp only [SF.open_position]
split_ifs with h1 h2 h3 h4 h5 h6
· exact Or.inl rfl
· exact Or.inl rfl
· exact Or.inl rfl
· exact Or.inl rfl
· exact Or.inl rfl
· rcases commit_open_spec e position_type price date
      (SF.entry_stop_loss position_type price stop_loss_pct)
      (SF.entry_take_profit position_type price take_profit_pct)
      (e.cash * e.leverage / (price * (1 + e.transaction_cost)))
      (price * (e.cash * e.leverage / (price * (1 + e.transaction_cost))) *
        (1 + e.transaction_cost) / e.leverage) with
    ⟨_, heq⟩ | ⟨_, hcash, hpositions, _⟩
  · rw [heq]
    exact Or.inl rfl
  · refine Or.inr ⟨?_, _, hpositions⟩
    rw [hcash]
    have hm : price * (e.cash * e.leverage /
        (price * (1 + e.transaction_cost))) *
        (1 + e.transaction_cost) / e.leverage = e.cash := by
      field_simp
      ring
    rw [hm, sub_self]
· rcases commit_open_spec e position_type price date
      (SF.entry_stop_loss position_type price stop_loss_pct)
      (SF.entry_take_profit position_type price take_profit_pct)
      (SF.get_total_portfolio_value e price * e.risk_per_trade /
        (stop_loss_pct * price))
      (SF.entry_adjusted_price position_type price e.slippage_pct *
        (SF.get_total_portfolio_value e price * e.risk_per_trade /
          (stop_loss_pct * price)) * (1 + e.transaction_cost) /
        e.leverage) with
    ⟨_, heq⟩ | ⟨_, hcash, hpositions, _⟩
  · rw [heq]
    exact Or.inl rfl
  · refine Or.inr ⟨?_, _, hpositions⟩
    rw [hcash]
    exact sub_nonneg.mpr (not_lt.mp h5)

/-- Claim C5: from a flat book with cash 10000 (1% risk, no friction), the
signal sequence [1, -1, 0] on constant bars at price 100 produces exactly the
transaction sequence open-long, close-long, open-short, and at none of the
reachable states is a long position open at the same time as a short
position. -/
theorem C5_signal_sequence_scenario :
    ∃ e1 e2 e3 : SF.Executor,
      SF.execute_signal
        { cash := 10000, transaction_cost := 0, leverage := 1,
          trailing_pct := none, slippage_pct := 0, risk_per_trade := 1/100,
          positions := [], history := [], next_id := 0 }
        1 100 1 100 100 5 10 = Except.ok e1 ∧
      SF.execute_signal e1 (-1) 100 2 100 100 5 10 = Except.ok e2 ∧
      SF.execute_signal e2 0 100 3 100 100 5 10 = Except.ok e3 ∧
      e3.history = [SF.Tx.openTx Side.long 100 20 1,
        SF.Tx.closeTx Side.long 100 20 2 0,
        SF.Tx.openTx Side.short 100 20 2] ∧
      ¬(SF.openSideExists
          { cash := 10000, transaction_cost := 0, leverage := 1,
            trailing_pct := none, slippage_pct := 0, risk_per_trade := 1/100,
            positions := [], history := [], next_id := 0 } Side.long ∧
        SF.openSideExists
          { cash := 10000, transaction_cost := 0, leverage := 1,
            trailing_pct := none, slippage_pct := 0, risk_per_trade := 1/100,
            positions := [], history := [], next_id := 0 } Side.short) ∧
      ¬(SF.openSideExists e1 Side.long ∧ SF.openSideExists e1 Side.short) ∧
      ¬(SF.openSideExists e2 Side.long ∧ SF.openSideExists e2 Side.short) ∧
      ¬(SF.openSideExists e3 Side.long ∧ SF.openSideExists e3 Side.short) := by
refine ⟨
  { cash := 8000, transaction_cost := 0, leverage := 1, trailing_pct := none,
    slippage_pct := 0, risk_per_trade := 1/100,
    positions := [SF.Position.create 0 Side.long 20 100 1 (some 95)
      (some 110)],
    history := [SF.Tx.openTx Side.long 100 20 1], next_id := 1 },
  { cash := 8000, transaction_cost := 0, leverage := 1, trailing_pct := none,
    slippage_pct := 0, risk_per_trade := 1/100,
    positions := [SF.Position.create 1 Side.short 20 100 2 (some 105)
      (some 90)],
    history := [SF.Tx.openTx Side.long 100 20 1,
      SF.Tx.closeTx Side.long 100 20 2 0,
      SF.Tx.openTx Side.short 100 20 2], next_id := 2 },
  { cash := 8000, transaction_cost := 0, leverage := 1, trailing_pct := none,
    slippage_pct := 0, risk_per_trade := 1/100,
    positions := [SF.Position.create 1 Side.short 20 100 2 (some 105)
      (some 90)],
    history := [SF.Tx.openTx Side.long 100 20 1,
      SF.Tx.closeTx Side.long 100 20 2 0,
      SF.Tx.openTx Side.short 100 20 2], next_id := 2 },
  ?_, ?_, ?_, ?_, ?_, ?_, ?_, ?_⟩
· norm_num [SF.execute_signal, SF.check_positions, SF.close_position,
    SF.open_position, SF.commit_open, SF.get_total_portfolio_value,
    SF.Position.check_exit_conditions, SF.Position.close, SF.Position.create,
    SF.entry_stop_loss, SF.entry_take_profit, SF.entry_adjusted_price,
    SF.epsilon, List.eraseP, List.filter]
· norm_num [SF.execute_signal, SF.check_positions, SF.close_position,
    SF.open_position, SF.commit_open, SF.get_total_portfolio_value,
    SF.Position.check_exit_conditions, SF.Position.close, SF.Position.create,
    SF.entry_stop_loss, SF.entry_take_profit, SF.entry_adjusted_price,
    SF.epsilon, List.eraseP, List.filter]
· norm_num [SF.execute_signal, SF.check_positions, SF.close_position,
    SF.open_position, SF.commit_open, SF.get_total_portfolio_value,
    SF.Position.check_exit_conditions, SF.Position.close, SF.Position.create,
    SF.entry_stop_loss, SF.entry_take_profit, SF.entry_adjusted_price,
    SF.epsilon, List.eraseP, List.filter]
· rfl
· simp [SF.openSideExists]
· simp [SF.openSideExists, SF.Position.create]
· simp [SF.openSideExists, SF.Position.create]
· simp [SF.openSideExists, SF.Position.create]

end Scalping
